import Mathlib

/-!
Verification of the face-detection / blink-detection subsystem of
react-native-webrtc-face-detection.

The development shallowly embeds the two platform variants of the
processor:

* the iOS variant (`ios/RCTWebRTC/videoEffects/FaceDetectionProcessor.m`),
  whose per-eye update computes an eye aspect ratio (EAR) from landmark
  contour points, maintains a per-eye running average, and gates blink
  counting on the closed duration; and
* the Android variant
  (`android/.../videoEffects/FaceDetectionProcessor.java`), whose per-eye
  update consumes a detector-provided open probability and counts every
  closed-to-open transition.

CGFloat / float / double values are modelled as rationals, NSInteger / int
as Int, and the keyed eye-state registries as functions into Option.
Timestamps are passed in explicitly (the code reads wall-clock time).
-/

/-- A 2D landmark point (CGPoint / ML Kit PointF), coordinates as rationals. -/
structure CGPoint where
  x : ℚ
  y : ℚ
deriving DecidableEq, Repr

/-- A face bounding box in normalized coordinates (CGRect). -/
structure CGRect where
  x : ℚ
  y : ℚ
  w : ℚ
  h : ℚ
deriving DecidableEq, Repr

/-- Per-eye temporal state of the iOS processor (interface EyeState in
FaceDetectionProcessor.m, lines 8-34). -/
structure EyeState where
  isOpen : Bool
  wasOpen : Bool
  blinkCount : Int
  currentEAR : ℚ
  avgEAR : ℚ
  sampleCount : Int
  lastOpenTime : ℚ
  lastClosedTime : ℚ
deriving DecidableEq, Repr

/-- The freshly constructed iOS EyeState (init, FaceDetectionProcessor.m
lines 20-33). -/
def initEyeState : EyeState :=
  { isOpen := true
    wasOpen := true
    blinkCount := 0
    currentEAR := 3/10
    avgEAR := 3/10
    sampleCount := 0
    lastOpenTime := 0
    lastClosedTime := 0 }

/-- The per-eye data dictionary returned by processEyeLandmarks
(position, isOpen, openProbability, blinkCount). -/
structure EyeData where
  posX : ℚ
  posY : ℚ
  isOpen : Bool
  openProbability : ℚ
  blinkCount : Int
deriving DecidableEq, Repr

/-- The body of the iOS blinkDetected event (FaceDetectionProcessor.m
lines 348-353): timestamp, eye side, tracking id and cumulative blink
count. -/
structure BlinkEvent where
  timestamp : ℚ
  eye : String
  trackingId : Int
  blinkCount : Int
deriving DecidableEq, Repr

/-- Smallest x coordinate over a point list (the minX loop of
calculateEAR, FaceDetectionProcessor.m lines 398-410; the comparison is
the loop conditional of the source). -/
def minXOf : List CGPoint → ℚ
  | [] => 0
  | p :: ps => ps.foldl (fun m q => if q.x < m then q.x else m) p.x

/-- Largest x coordinate over a point list (the maxX loop of
calculateEAR). -/
def maxXOf : List CGPoint → ℚ
  | [] => 0
  | p :: ps => ps.foldl (fun m q => if m < q.x then q.x else m) p.x

/-- Smallest y coordinate over a point list (used by the bounding-box
fallback of calculateEAR, lines 446-453). -/
def minYOf : List CGPoint → ℚ
  | [] => 0
  | p :: ps => ps.foldl (fun m q => if q.y < m then q.y else m) p.y

/-- Largest y coordinate over a point list. -/
def maxYOf : List CGPoint → ℚ
  | [] => 0
  | p :: ps => ps.foldl (fun m q => if m < q.y then q.y else m) p.y

/-- Points whose x coordinate falls within the tolerance band around one
sample position (the inner loop of calculateEAR, lines 431-438). -/
def bandPoints (points : List CGPoint) (sampleX tol : ℚ) : List CGPoint :=
  points.filter (fun p => decide (|p.x - sampleX| < tol))

/-- Vertical opening contributed by one sample position: the difference
between the band maximum and minimum y when the band is nonempty and the
upper lid lies strictly above the lower lid (lines 423-444). -/
def sampleOpening (points : List CGPoint) (minX hd s : ℚ) : Option ℚ :=
  match bandPoints points (minX + hd * s) (hd * (3/20)) with
  | [] => none
  | q :: qs =>
      let upperY := maxYOf (q :: qs)
      let lowerY := minYOf (q :: qs)
      if lowerY < upperY then some (upperY - lowerY) else none

/-- Eye aspect ratio of one eye contour (calculateEAR:count:,
FaceDetectionProcessor.m lines 388-464). Returns the neutral default 0.3
for fewer than 6 points and for a degenerate horizontal extent; otherwise
samples the vertical opening at 25, 50 and 75 percent of the horizontal
span and divides the average opening (or the bounding-box height when no
sample was valid) by the horizontal extent. -/
def calculateEAR (points : List CGPoint) : ℚ :=
  if points.length < 6 then 3/10
  else
    let minX := minXOf points
    let maxX := maxXOf points
    let hd := maxX - minX
    if hd < 1/10000 then 3/10
    else
      let contribs := ([1/4, 1/2, 3/4] : List ℚ).filterMap
        (fun s => sampleOpening points minX hd s)
      match contribs with
      | [] => (maxYOf points - minYOf points) / hd
      | c :: cs => (((c :: cs).sum / ((c :: cs).length : ℚ))) / hd

/-- Centroid of a point list (calculateCenterOfPoints:count:, lines
466-478). -/
def calculateCenterOfPoints : List CGPoint → CGPoint
  | [] => ⟨0, 0⟩
  | p :: ps =>
      ⟨((p :: ps).map CGPoint.x).sum / ((p :: ps).length : ℚ),
       ((p :: ps).map CGPoint.y).sum / ((p :: ps).length : ℚ)⟩

/-- The running-average update of processEyeLandmarks (lines 301-311),
applied after sampleCount has been incremented to n: cumulative mean while
n is at most 30, afterwards an exponential moving average taken only when
the sample exceeds half the current average. -/
def updateAvgEAR (avg : ℚ) (n : Int) (ear : ℚ) : ℚ :=
  if n ≤ 30 then (avg * ((n : ℚ) - 1) + ear) / (n : ℚ)
  else if avg * (1/2) < ear then avg * (98/100) + ear * (2/100)
  else avg

/-- The MAX(0.0, p) conditional of the clamp in processEyeLandmarks line
371. -/
def clampLow (p : ℚ) : ℚ := if 0 > p then 0 else p

/-- The MIN(1.0, q) conditional of the clamp in processEyeLandmarks line
371. -/
def clampHigh (q : ℚ) : ℚ := if 1 < q then 1 else q

/-- The open-probability computation of processEyeLandmarks (lines
358-375): guarded linear interpolation between the closed EAR and 1.2
times the average EAR, clamped to the unit interval. -/
def openProbabilityOf (avg bt ear : ℚ) (currentlyOpen : Bool) : ℚ :=
  if 1/1000 < avg then
    let closedEAR := avg * bt
    let range := avg - closedEAR
    if 1/1000 < range then
      clampHigh (clampLow ((ear - closedEAR) / (avg * (6/5) - closedEAR)))
    else if currentlyOpen then 1 else 0
  else 0

/-- The missing-landmark branch of processEyeLandmarks (lines 268-287):
records wasOpen, marks the eye closed only when more than 10 samples have
accumulated, and reports the resulting openness with a 0/1 probability. -/
def processMissingEye (now : ℚ) (st : EyeState) : EyeState × EyeData × Option BlinkEvent :=
  let wasOpen := st.isOpen
  let st' : EyeState :=
    if 10 < st.sampleCount then
      { st with
          wasOpen := wasOpen
          isOpen := false
          lastClosedTime := if wasOpen then now else st.lastClosedTime }
    else { st with wasOpen := wasOpen }
  (st', ⟨0, 0, st'.isOpen, if st'.isOpen then 1 else 0, st'.blinkCount⟩, none)

/-- One per-eye update of the iOS processor
(processEyeLandmarks:eyeState:eyeSide:frameWidth:frameHeight:boundingBox:trackingId:,
FaceDetectionProcessor.m lines 258-386). Returns the updated EyeState,
the per-eye data dictionary, and the blink event emitted, if any. -/
def processEyeLandmarks (bt now : ℚ) (eyeRegion : Option (List CGPoint))
    (st : EyeState) (eyeSide : String) (fw fh : ℚ) (bb : CGRect)
    (trackingId : Int) : EyeState × EyeData × Option BlinkEvent :=
  match eyeRegion with
  | none => processMissingEye now st
  | some [] => processMissingEye now st
  | some (p :: ps) =>
      let pts := p :: ps
      let c := calculateCenterOfPoints pts
      let eyeX := (bb.x + c.x * bb.w) * fw
      let eyeY := (1 - (bb.y + c.y * bb.h)) * fh
      let ear := calculateEAR pts
      let n := st.sampleCount + 1
      let avg := updateAvgEAR st.avgEAR n ear
      let adaptiveThreshold := avg * bt
      let wasOpen := st.isOpen
      let currentlyOpen : Bool := decide (adaptiveThreshold < ear)
      let lastOpenTime := if currentlyOpen && !wasOpen then now else st.lastOpenTime
      let lastClosedTime := if !currentlyOpen && wasOpen then now else st.lastClosedTime
      let d := now - st.lastClosedTime
      let validBlink : Bool :=
        !wasOpen && currentlyOpen && decide (1/20 < d) && decide (d < 2/5)
      let bc := if validBlink then st.blinkCount + 1 else st.blinkCount
      let st' : EyeState :=
        { isOpen := currentlyOpen
          wasOpen := wasOpen
          blinkCount := bc
          currentEAR := ear
          avgEAR := avg
          sampleCount := n
          lastOpenTime := lastOpenTime
          lastClosedTime := lastClosedTime }
      let ev : Option BlinkEvent :=
        if validBlink then some ⟨now * 1000, eyeSide, trackingId, bc⟩ else none
      (st', ⟨eyeX, eyeY, currentlyOpen, openProbabilityOf avg bt ear currentlyOpen, bc⟩, ev)

/-- One per-eye input frame: timestamp, optional landmark contour, and the
auxiliary arguments of processEyeLandmarks. -/
structure EyeInput where
  now : ℚ
  region : Option (List CGPoint)
  side : String
  fw : ℚ
  fh : ℚ
  bb : CGRect
  tid : Int

/-- Apply one per-eye update and keep the updated state. -/
def stepEye (bt : ℚ) (st : EyeState) (i : EyeInput) : EyeState :=
  (processEyeLandmarks bt i.now i.region st i.side i.fw i.fh i.bb i.tid).1

/-- Fold a sequence of per-eye updates over an EyeState. -/
def runEye (bt : ℚ) (st : EyeState) (inputs : List EyeInput) : EyeState :=
  inputs.foldl (stepEye bt) st

/-- The EAR value of one input (the calculateEAR call made for it). -/
def earOf (i : EyeInput) : ℚ := calculateEAR (i.region.getD [])

/-- Per-eye temporal state of the Android processor (inner class
EyeState, FaceDetectionProcessor.java lines 64-69). -/
structure AEyeState where
  isOpen : Bool
  wasOpen : Bool
  blinkCount : Int
  currentProbability : ℚ
deriving DecidableEq, Repr

/-- The freshly constructed Android EyeState. -/
def initAEyeState : AEyeState :=
  { isOpen := true, wasOpen := true, blinkCount := 0, currentProbability := 1 }

/-- The body of the Android blinkDetected event
(FaceDetectionProcessor.java lines 478-482): timestamp, eye side and
tracking id. The payload has no blink-count field. -/
structure ABlinkEvent where
  timestamp : ℚ
  eye : String
  trackingId : Int
deriving DecidableEq, Repr

/-- A keyed registry of Android eye states (HashMap keyed by tracking
id). -/
def ARegistry : Type := Int → Option AEyeState

/-- The empty Android registry. -/
def emptyARegistry : ARegistry := fun _ => none

/-- One per-eye update of the Android processor (processEye,
FaceDetectionProcessor.java lines 449-495). Given the configured blink
threshold, the current wall-clock time, the optional landmark position,
the optional detector eye-open probability and optional tracking id, and
the registry for this eye side, it returns the updated registry, the
per-eye data map, and the blink event emitted, if any. -/
def androidProcessEye (bt now : ℚ) (eyePos : Option CGPoint)
    (openProbability : Option ℚ) (trackingId : Option Int)
    (eyeStates : ARegistry) (eyeSide : String) :
    ARegistry × EyeData × Option ABlinkEvent :=
  let posX := match eyePos with | some q => q.x | none => 0
  let posY := match eyePos with | some q => q.y | none => 0
  match openProbability, trackingId with
  | some prob, some tid =>
      let st0 := (eyeStates tid).getD initAEyeState
      let wasOpen := st0.isOpen
      let isOpen : Bool := decide (bt < prob)
      let blink : Bool := !wasOpen && isOpen
      let st1 : AEyeState :=
        { isOpen := isOpen
          wasOpen := wasOpen
          blinkCount := if blink then st0.blinkCount + 1 else st0.blinkCount
          currentProbability := prob }
      let ev : Option ABlinkEvent :=
        if blink then some ⟨now, eyeSide, tid⟩ else none
      (fun j => if j = tid then some st1 else eyeStates j,
       ⟨posX, posY, st1.isOpen, prob, st1.blinkCount⟩, ev)
  | _, _ => (eyeStates, ⟨posX, posY, true, 1, 0⟩, none)

/-- The Android-side frame-skip setter (setFrameSkipCount,
FaceDetectionProcessor.java lines 140-142): Math.max(1, count). -/
def androidSetFrameSkipCount (count : Int) : Int := max 1 count

/-- The frame-admission state of the Android processor. -/
structure AndroidProcessor where
  isEnabled : Bool
  pipelineInitialized : Bool
  frameSkipCount : Int
  frameCounter : Int
  isProcessing : Bool
deriving DecidableEq, Repr

/-- The Android admission gate (process, FaceDetectionProcessor.java
lines 154-217), restricted to its state effects: returns the new
processor state, the frame handed back to the caller, and whether the
frame was admitted for analysis. -/
def androidProcess (p : AndroidProcessor) (frame : Nat) :
    AndroidProcessor × Nat × Bool :=
  if !p.isEnabled || !p.pipelineInitialized then (p, frame, false)
  else
    let c := p.frameCounter + 1
    if c % p.frameSkipCount ≠ 0 then ({ p with frameCounter := c }, frame, false)
    else if p.isProcessing then ({ p with frameCounter := c }, frame, false)
    else ({ p with frameCounter := c, isProcessing := true }, frame, true)

/-- The frame-admission state of the iOS processor (properties of
FaceDetectionProcessor.m plus the per-side eye-state registries keyed by
face index). -/
structure IosProcessor where
  isEnabled : Bool
  frameSkipCount : Int
  blinkThreshold : ℚ
  frameCounter : Int
  isProcessing : Bool
  leftEyeStates : Int → Option EyeState
  rightEyeStates : Int → Option EyeState

/-- The iOS processor right after initWithEventEmitter
(FaceDetectionProcessor.m lines 47-62). -/
def initIosProcessor : IosProcessor :=
  { isEnabled := false
    frameSkipCount := 2
    blinkThreshold := 3/5
    frameCounter := 0
    isProcessing := false
    leftEyeStates := fun _ => none
    rightEyeStates := fun _ => none }

/-- The iOS reset method (FaceDetectionProcessor.m lines 64-71): clears
both eye-state registries, the frame counter, and the in-flight flag. -/
def iosReset (p : IosProcessor) : IosProcessor :=
  { p with
      leftEyeStates := fun _ => none
      rightEyeStates := fun _ => none
      frameCounter := 0
      isProcessing := false }

/-- The iOS admission gate (capturer:didCaptureVideoFrame:,
FaceDetectionProcessor.m lines 73-99), restricted to its state effects:
returns the new processor state, the frame handed back to the caller,
and whether the frame was admitted for analysis. -/
def iosCapture (p : IosProcessor) (frame : Nat) :
    IosProcessor × Nat × Bool :=
  if !p.isEnabled then (p, frame, false)
  else
    let c := p.frameCounter + 1
    if c % p.frameSkipCount ≠ 0 then ({ p with frameCounter := c }, frame, false)
    else if p.isProcessing then ({ p with frameCounter := c }, frame, false)
    else ({ p with frameCounter := c, isProcessing := true }, frame, true)

/-- The iOS enableFaceDetection bridge method (WebRTCModule category,
lines 136-157 of the module source): enables the processor and copies the
configured frameSkipCount and blinkThreshold verbatim when present. -/
def iosEnableFaceDetection (p : IosProcessor) (cfgFrameSkip : Option Int)
    (cfgBlinkThreshold : Option ℚ) : IosProcessor :=
  let p1 := { p with isEnabled := true }
  let p2 := match cfgFrameSkip with
    | some v => { p1 with frameSkipCount := v }
    | none => p1
  match cfgBlinkThreshold with
  | some b => { p2 with blinkThreshold := b }
  | none => p2

/-- Modelled from the spec, section 4.4: the openness probability as the
spec states it, with no guard — linear interpolation of ear between
closedEAR = avgEAR * blinkThreshold and avgEAR * 1.2, clamped to the
interval from 0 to 1. Used only to compare the specified formula with the
implemented one. -/
def specOpenProbability (avg bt ear : ℚ) : ℚ :=
  let closedEAR := avg * bt
  min 1 (max 0 ((ear - closedEAR) / (avg * (6/5) - closedEAR)))

/-- A 6-point synthetic eye contour with horizontal extent 1 whose EAR is
2 * h: extreme points at height 0 and lid points at heights h and -h over
the 25 and 75 percent sample positions. -/
def eyePoints (h : ℚ) : List CGPoint :=
  [⟨0, 0⟩, ⟨1, 0⟩, ⟨1/4, h⟩, ⟨1/4, -h⟩, ⟨3/4, h⟩, ⟨3/4, -h⟩]

/-- A unit bounding box used by concrete evaluations. -/
def bb0 : CGRect := ⟨0, 0, 1, 1⟩

/-- Concrete iOS eye state after one landmark update of a fresh eye with
EAR 0.35 (so avgEAR = 0.35, sampleCount = 1, eye open). -/
def c7st1 : EyeState :=
  (processEyeLandmarks (3/5) 0 (some (eyePoints (7/40))) initEyeState "left" 1 1 bb0 0).1

/-- Concrete iOS eye state after a second landmark update with EAR 0.1:
the adaptive threshold is 0.135, so the eye is marked closed while
sampleCount is still 2. -/
def c7st2 : EyeState :=
  (processEyeLandmarks (3/5) 1 (some (eyePoints (1/20))) c7st1 "left" 1 1 bb0 0).1

/-- Concrete iOS eye state with 40 accumulated samples, for exercising the
steady-state branch of the calibration update. -/
def c5st : EyeState := { initEyeState with sampleCount := 40 }

/-- A concrete landmark input frame with EAR 0.35, for witnesses. -/
def c4inp : EyeInput := ⟨0, some (eyePoints (7/40)), "left", 1, 1, bb0, 0⟩

/-- Android registry after a closed sample (probability 0.1) for tracking
id 7 at time 0 ms. -/
def c1reg1 : ARegistry :=
  (androidProcessEye (3/10) 0 none (some (1/10)) (some 7) emptyARegistry "left").1

/-- Android registry after a second closed sample at time 250 ms: the eye
for tracking id 7 has now been closed for 250 ms. -/
def c1reg2 : ARegistry :=
  (androidProcessEye (3/10) 250 none (some (1/10)) (some 7) c1reg1 "left").1

/-- Sample count and average after one landmark update: the count is
incremented and the average follows updateAvgEAR. -/
lemma stepEye_landmark (bt : ℚ) (st : EyeState) (i : EyeInput) (p : CGPoint)
    (ps : List CGPoint) (h : i.region = some (p :: ps)) :
    (stepEye bt st i).sampleCount = st.sampleCount + 1
    ∧ (stepEye bt st i).avgEAR
        = updateAvgEAR st.avgEAR (st.sampleCount + 1) (calculateEAR (p :: ps)) := by
  constructor <;> simp only [stepEye, processEyeLandmarks, h]

/-- Along a run of landmark updates that stays within the calibration
window, the product avgEAR * sampleCount grows by exactly the sum of the
EAR samples, and sampleCount by the number of samples. -/
lemma calib_run_product (bt : ℚ) (inputs : List EyeInput) :
    ∀ st : EyeState,
      (∀ i ∈ inputs, ∃ p ps, i.region = some (p :: ps)) →
      0 ≤ st.sampleCount →
      st.sampleCount + inputs.length ≤ 30 →
      (runEye bt st inputs).sampleCount = st.sampleCount + inputs.length
      ∧ (runEye bt st inputs).avgEAR * ((st.sampleCount + inputs.length : Int) : ℚ)
          = st.avgEAR * ((st.sampleCount : Int) : ℚ) + (inputs.map earOf).sum := by
  induction inputs with
  | nil =>
      intro st _ _ _
      simp [runEye]
  | cons i rest ih =>
      intro st hall h0 h30
      obtain ⟨p, ps, hreg⟩ := hall i (by simp)
      have hstep := stepEye_landmark bt st i p ps hreg
      have hlen : (i :: rest).length = rest.length + 1 := by simp
      have h0' : 0 ≤ (stepEye bt st i).sampleCount := by omega
      have h30' : (stepEye bt st i).sampleCount + rest.length ≤ 30 := by
        rw [hstep.1]; rw [hlen] at h30; omega
      have hrest := ih (stepEye bt st i)
        (fun j hj => hall j (by simp [hj])) h0' h30'
      have hrun : runEye bt st (i :: rest) = runEye bt (stepEye bt st i) rest := rfl
      have hne : ((st.sampleCount + 1 : Int) : ℚ) ≠ 0 := by
        have h1 : (0 : ℚ) ≤ ((st.sampleCount : Int) : ℚ) := by exact_mod_cast h0
        push_cast
        push_cast at h1
        exact ne_of_gt (by linarith)
      have havg : (stepEye bt st i).avgEAR * ((st.sampleCount + 1 : Int) : ℚ)
          = st.avgEAR * ((st.sampleCount : Int) : ℚ) + calculateEAR (p :: ps) := by
        rw [hstep.2]
        have hle : st.sampleCount + 1 ≤ 30 := by rw [hlen] at h30; omega
        rw [updateAvgEAR, if_pos hle, div_mul_cancel₀ _ hne]
        push_cast
        ring
      have hear : earOf i = calculateEAR (p :: ps) := by
        simp [earOf, hreg]
      constructor
      · rw [hrun, hrest.1, hstep.1, hlen]; omega
      · rw [hrun]
        have hcast : ((st.sampleCount + (i :: rest).length : Int) : ℚ)
            = (((stepEye bt st i).sampleCount + rest.length : Int) : ℚ) := by
          rw [hstep.1, hlen]; push_cast; ring
        rw [hcast, hrest.2, hstep.1]
        rw [List.map_cons, List.sum_cons, hear]
        have : ((st.sampleCount + 1 + rest.length : Int) : ℚ)
            = ((st.sampleCount + 1 : Int) : ℚ) + (rest.length : ℚ) := by push_cast; ring
        rw [havg]
        ring

/-- One per-eye update never decreases blinkCount, whatever the input. -/
lemma blinkCount_le_stepEye (bt : ℚ) (st : EyeState) (i : EyeInput) :
    st.blinkCount ≤ (stepEye bt st i).blinkCount := by
  rcases hreg : i.region with _ | (_ | ⟨p, ps⟩)
  · simp only [stepEye, processEyeLandmarks, hreg, processMissingEye]
    split <;> simp
  · simp only [stepEye, processEyeLandmarks, hreg, processMissingEye]
    split <;> simp
  · simp only [stepEye, processEyeLandmarks, hreg]
    split <;> omega

/-- Claim C2: the spec requires every platform variant to clamp a
configured frameSkipCount of at most 0 up to 1 before it can reach the
modulo of the admission check. The Android setter does clamp
(Math.max(1, count)), but the iOS bridge method enableFaceDetection
stores the configured value verbatim, so a configured 0 (or a negative
value) becomes the effective frameSkipCount of the iOS admission check,
whose frameCounter % frameSkipCount is then taken with a zero or negative
divisor. This theorem evaluates both platforms at the failing input 0 and
at -3. -/
theorem C2_frameSkip_clamp_bug :
    (iosEnableFaceDetection initIosProcessor (some 0) none).frameSkipCount = 0
    ∧ (iosEnableFaceDetection initIosProcessor (some (-3)) none).frameSkipCount = -3
    ∧ androidSetFrameSkipCount 0 = 1
    ∧ androidSetFrameSkipCount (-3) = 1 := by
  refine ⟨rfl, rfl, ?_, ?_⟩ <;> decide

/-- Claim C3: on both platforms, while the pipeline is enabled (and, on
Android, initialized), the admission gate increments the frame counter by
exactly one for every delivered frame, admits the frame exactly when the
incremented counter is divisible by frameSkipCount and no analysis is in
flight, always hands the frame back to the caller, and on a dropped frame
changes no state besides the counter. The gate is a total function, so it
never raises. -/
theorem C3_admission_gate :
    (∀ (p : IosProcessor) (f : Nat), p.isEnabled = true →
      (iosCapture p f).1.frameCounter = p.frameCounter + 1
      ∧ (iosCapture p f).2.1 = f
      ∧ ((iosCapture p f).2.2 = true ↔
          ((p.frameCounter + 1) % p.frameSkipCount = 0 ∧ p.isProcessing = false))
      ∧ ((iosCapture p f).2.2 = false →
          (iosCapture p f).1 = { p with frameCounter := p.frameCounter + 1 }))
    ∧ (∀ (p : AndroidProcessor) (f : Nat),
      p.isEnabled = true → p.pipelineInitialized = true →
      (androidProcess p f).1.frameCounter = p.frameCounter + 1
      ∧ (androidProcess p f).2.1 = f
      ∧ ((androidProcess p f).2.2 = true ↔
          ((p.frameCounter + 1) % p.frameSkipCount = 0 ∧ p.isProcessing = false))
      ∧ ((androidProcess p f).2.2 = false →
          (androidProcess p f).1 = { p with frameCounter := p.frameCounter + 1 })) := by
  constructor
  · intro p f hen
    simp only [iosCapture, hen, Bool.not_true, Bool.false_eq_true, if_false]
    by_cases hmod : (p.frameCounter + 1) % p.frameSkipCount = 0
    · by_cases hproc : p.isProcessing = true
      · simp [hmod, hproc]
      · simp at hproc
        simp [hmod, hproc]
    · simp [hmod]
  · intro p f hen hinit
    simp only [androidProcess, hen, hinit, Bool.not_true, Bool.or_self,
      Bool.false_eq_true, if_false]
    by_cases hmod : (p.frameCounter + 1) % p.frameSkipCount = 0
    · by_cases hproc : p.isProcessing = true
      · simp [hmod, hproc]
      · simp at hproc
        simp [hmod, hproc]
    · simp [hmod]

/-- Witness for C3 at a concrete enabled state: the counter increments,
the frame is returned, and the admission decision matches the modulo and
in-flight conditions. -/
theorem C3_admission_gate_witness :
    (iosCapture { initIosProcessor with isEnabled := true } 42).1.frameCounter = 1
    ∧ (iosCapture { initIosProcessor with isEnabled := true } 42).2.1 = 42
    ∧ ((iosCapture { initIosProcessor with isEnabled := true } 42).2.2 = true ↔
        ((1 : Int) % 2 = 0 ∧ false = false)) := by
  have h := C3_admission_gate.1 { initIosProcessor with isEnabled := true } 42 rfl
  exact ⟨h.1, h.2.1, h.2.2.1⟩

/-- Claim C10: on Android, a per-eye update missing the detector
probability or the tracking id reports an open eye with probability 1 and
blink count 0, emits no event, and leaves the eye-state registry
untouched. -/
theorem C10_android_null_inputs :
    ∀ (bt now : ℚ) (pos : Option CGPoint) (prob : Option ℚ) (tid : Option Int)
      (reg : ARegistry) (side : String),
      prob = none ∨ tid = none →
      (androidProcessEye bt now pos prob tid reg side).1 = reg
      ∧ (androidProcessEye bt now pos prob tid reg side).2.1.isOpen = true
      ∧ (androidProcessEye bt now pos prob tid reg side).2.1.openProbability = 1
      ∧ (androidProcessEye bt now pos prob tid reg side).2.1.blinkCount = 0
      ∧ (androidProcessEye bt now pos prob tid reg side).2.2 = none := by
  intro bt now pos prob tid reg side h
  rcases prob with _ | prob <;> rcases tid with _ | tid <;>
    simp_all [androidProcessEye]

/-- Witness for C10: a concrete update with a probability but no tracking
id changes nothing and reports the defaults. -/
theorem C10_android_null_inputs_witness :
    (androidProcessEye (3/10) 0 none (some (9/10)) none emptyARegistry "left").1
        = emptyARegistry
    ∧ (androidProcessEye (3/10) 0 none (some (9/10)) none emptyARegistry "left").2.1.isOpen
        = true
    ∧ (androidProcessEye (3/10) 0 none (some (9/10)) none emptyARegistry "left").2.1.openProbability
        = 1
    ∧ (androidProcessEye (3/10) 0 none (some (9/10)) none emptyARegistry "left").2.1.blinkCount
        = 0
    ∧ (androidProcessEye (3/10) 0 none (some (9/10)) none emptyARegistry "left").2.2
        = none :=
  C10_android_null_inputs (3/10) 0 none (some (9/10)) none emptyARegistry "left"
    (Or.inr rfl)

/-- Claim C6: blinkCount is monotonically non-decreasing along any
sequence of per-eye updates, and reset clears the per-eye registries (so
a fresh EyeState starts over at blink count 0) together with the frame
counter. -/
theorem C6_blinkCount_monotone :
    (∀ (bt : ℚ) (st : EyeState) (inputs : List EyeInput),
        st.blinkCount ≤ (runEye bt st inputs).blinkCount)
    ∧ (∀ p : IosProcessor,
        (iosReset p).leftEyeStates = (fun _ => none)
        ∧ (iosReset p).rightEyeStates = (fun _ => none)
        ∧ (iosReset p).frameCounter = 0)
    ∧ initEyeState.blinkCount = 0 := by
  refine ⟨?_, fun p => ⟨rfl, rfl, rfl⟩, rfl⟩
  intro bt st inputs
  induction inputs generalizing st with
  | nil => simp [runEye]
  | cons i rest ih =>
      calc st.blinkCount ≤ (stepEye bt st i).blinkCount :=
            blinkCount_le_stepEye bt st i
        _ ≤ (runEye bt (stepEye bt st i) rest).blinkCount := ih _

/-- Claim C9: the eye geometry analyzer returns the neutral default 0.3
for fewer than 6 points and for a horizontal extent below the 1/10000
epsilon; in every other case the horizontal extent is positive and the
result is a quotient with that extent as denominator, so the computation
never divides by zero. -/
theorem C9_ear_degenerate_safe :
    (∀ pts : List CGPoint, pts.length < 6 → calculateEAR pts = 3/10)
    ∧ (∀ pts : List CGPoint,
        maxXOf pts - minXOf pts < 1/10000 → calculateEAR pts = 3/10)
    ∧ (∀ pts : List CGPoint, 6 ≤ pts.length →
        1/10000 ≤ maxXOf pts - minXOf pts →
        0 < maxXOf pts - minXOf pts
        ∧ ∃ v : ℚ, calculateEAR pts = v / (maxXOf pts - minXOf pts)) := by
  refine ⟨fun pts h => by simp [calculateEAR, h], ?_, ?_⟩
  · intro pts h
    by_cases hlen : pts.length < 6
    · simp [calculateEAR, hlen]
    · simp only [calculateEAR, hlen, if_false, h, if_true]
  · intro pts hlen hd
    have hpos : 0 < maxXOf pts - minXOf pts := by linarith
    refine ⟨hpos, ?_⟩
    have hlen' : ¬ pts.length < 6 := by omega
    have hd' : ¬ maxXOf pts - minXOf pts < 1/10000 := by linarith
    simp only [calculateEAR, hlen', if_false, hd', if_true]
    cases hc : ([1/4, 1/2, 3/4] : List ℚ).filterMap
        (fun s => sampleOpening pts (minXOf pts) (maxXOf pts - minXOf pts) s) with
    | nil => exact ⟨maxYOf pts - minYOf pts, rfl⟩
    | cons c cs => exact ⟨(c :: cs).sum / ((c :: cs).length : ℚ), rfl⟩

/-- Witness for C9: the degenerate defaults and the quotient shape at
concrete point sets. -/
theorem C9_ear_degenerate_safe_witness :
    calculateEAR [] = 3/10
    ∧ calculateEAR [⟨0,0⟩, ⟨0,1⟩, ⟨0,2⟩, ⟨0,3⟩, ⟨0,4⟩, ⟨0,5⟩] = 3/10
    ∧ (0 < maxXOf (eyePoints (7/40)) - minXOf (eyePoints (7/40))
       ∧ ∃ v : ℚ, calculateEAR (eyePoints (7/40))
          = v / (maxXOf (eyePoints (7/40)) - minXOf (eyePoints (7/40)))) := by
  refine ⟨C9_ear_degenerate_safe.1 [] (by simp), ?_, ?_⟩
  · exact C9_ear_degenerate_safe.2.1 _ (by norm_num [maxXOf, minXOf, List.foldl])
  · exact C9_ear_degenerate_safe.2.2 _ (by simp [eyePoints])
      (by norm_num [eyePoints, maxXOf, minXOf, List.foldl])

/-- Claim C4: through the calibration phase (up to 30 samples), after
each landmark update the stored avgEAR is the arithmetic mean of all EAR
samples seen so far, whatever the pre-calibration initial average was;
in particular 30 identical samples leave the average exactly at the
sample value. -/
theorem C4_calibration_mean :
    (∀ (bt a0 : ℚ) (inputs : List EyeInput),
        (∀ i ∈ inputs, ∃ p ps, i.region = some (p :: ps)) →
        1 ≤ inputs.length → inputs.length ≤ 30 →
        (runEye bt { initEyeState with avgEAR := a0 } inputs).sampleCount = inputs.length
        ∧ (runEye bt { initEyeState with avgEAR := a0 } inputs).avgEAR
            = (inputs.map earOf).sum / (inputs.length : ℚ))
    ∧ (∀ (bt a0 : ℚ) (i : EyeInput) (p : CGPoint) (ps : List CGPoint),
        i.region = some (p :: ps) →
        (runEye bt { initEyeState with avgEAR := a0 } (List.replicate 30 i)).avgEAR
          = calculateEAR (p :: ps)) := by
  have hA : ∀ (bt a0 : ℚ) (inputs : List EyeInput),
      (∀ i ∈ inputs, ∃ p ps, i.region = some (p :: ps)) →
      1 ≤ inputs.length → inputs.length ≤ 30 →
      (runEye bt { initEyeState with avgEAR := a0 } inputs).sampleCount = inputs.length
      ∧ (runEye bt { initEyeState with avgEAR := a0 } inputs).avgEAR
          = (inputs.map earOf).sum / (inputs.length : ℚ) := by
    intro bt a0 inputs hall h1 h30
    have hsc : ({ initEyeState with avgEAR := a0 } : EyeState).sampleCount = 0 := rfl
    have h := calib_run_product bt inputs { initEyeState with avgEAR := a0 } hall
      (by rw [hsc]) (by rw [hsc]; omega)
    obtain ⟨hcount, hprod⟩ := h
    rw [hsc] at hcount hprod
    have hcount' : (runEye bt { initEyeState with avgEAR := a0 } inputs).sampleCount
        = inputs.length := by omega
    refine ⟨hcount', ?_⟩
    have hlenpos : (0 : ℚ) < (inputs.length : ℚ) := by exact_mod_cast h1
    rw [eq_div_iff (ne_of_gt hlenpos)]
    have hcast : ((0 + (inputs.length : Int) : Int) : ℚ) = (inputs.length : ℚ) := by
      push_cast; ring
    rw [hcast] at hprod
    rw [hprod]
    norm_num
  refine ⟨hA, ?_⟩
  intro bt a0 i p ps hreg
  have h := hA bt a0 (List.replicate 30 i)
    (fun j hj => by rw [List.eq_of_mem_replicate hj]; exact ⟨p, ps, hreg⟩)
    (by simp) (by simp)
  rcases h with ⟨-, havg⟩
  rw [havg, List.map_replicate, List.sum_replicate, List.length_replicate]
  have hear : earOf i = calculateEAR (p :: ps) := by simp [earOf, hreg]
  rw [hear, nsmul_eq_mul]
  norm_num

/-- Witness for C4: one landmark sample from a fresh eye with initial
average 0.9 makes avgEAR the mean of the singleton sample list. -/
theorem C4_calibration_mean_witness :
    (runEye (3/5) { initEyeState with avgEAR := 9/10 } [c4inp]).sampleCount = 1
    ∧ (runEye (3/5) { initEyeState with avgEAR := 9/10 } [c4inp]).avgEAR
        = ([c4inp].map earOf).sum / (([c4inp] : List EyeInput).length : ℚ) := by
  have h := C4_calibration_mean.1 (3/5) (9/10) [c4inp]
    (fun i hi => by rw [List.mem_singleton] at hi; subst hi; exact ⟨_, _, rfl⟩)
    (by simp) (by simp)
  exact ⟨by rw [h.1]; rfl, h.2⟩

/-- Claim C5: in the steady-state phase (incremented sample count above
30), a landmark update moves avgEAR to 0.98 * avgEAR + 0.02 * ear exactly
when the sample exceeds half the running average, and leaves it untouched
otherwise. -/
theorem C5_steady_state_ema :
    ∀ (bt now : ℚ) (st : EyeState) (side : String) (fw fh : ℚ) (bb : CGRect)
      (tid : Int) (p : CGPoint) (ps : List CGPoint),
      ¬ st.sampleCount + 1 ≤ 30 →
      (st.avgEAR * (1/2) < calculateEAR (p :: ps) →
        (processEyeLandmarks bt now (some (p :: ps)) st side fw fh bb tid).1.avgEAR
          = st.avgEAR * (98/100) + calculateEAR (p :: ps) * (2/100))
      ∧ (¬ st.avgEAR * (1/2) < calculateEAR (p :: ps) →
        (processEyeLandmarks bt now (some (p :: ps)) st side fw fh bb tid).1.avgEAR
          = st.avgEAR) := by
  intro bt now st side fw fh bb tid p ps h
  have havg : (processEyeLandmarks bt now (some (p :: ps)) st side fw fh bb tid).1.avgEAR
      = updateAvgEAR st.avgEAR (st.sampleCount + 1) (calculateEAR (p :: ps)) := rfl
  constructor <;> intro hc
  · rw [havg, updateAvgEAR, if_neg h, if_pos hc]
  · rw [havg, updateAvgEAR, if_neg h, if_neg hc]

/-- Witness for C5: at 40 accumulated samples, an EAR sample of 0.35
(above half the 0.3 average) moves the average by the 0.02-weight
exponential rule. -/
theorem C5_steady_state_ema_witness :
    (processEyeLandmarks (3/5) 0 (some (eyePoints (7/40))) c5st "left" 1 1 bb0 0).1.avgEAR
      = c5st.avgEAR * (98/100) + calculateEAR (eyePoints (7/40)) * (2/100) := by
  have h := (C5_steady_state_ema (3/5) 0 c5st "left" 1 1 bb0 0 ⟨0, 0⟩
      [⟨1, 0⟩, ⟨1/4, 7/40⟩, ⟨1/4, -(7/40)⟩, ⟨3/4, 7/40⟩, ⟨3/4, -(7/40)⟩]
      (by decide)).1
  exact h (by
    norm_num [c5st, initEyeState, calculateEAR, eyePoints, minXOf, maxXOf, minYOf,
      maxYOf, bandPoints, sampleOpening, List.filterMap_cons, List.filter_cons,
      List.filter_nil, List.foldl_cons, List.foldl_nil, List.sum_cons,
      decide_eq_true_eq, abs_lt])

/-- Claim C1 (amended): on the iOS variant a closed-to-open transition
counts a blink and emits a BlinkEvent carrying timestamp, eye side,
tracking id and the new cumulative blinkCount exactly when the closed
duration lies strictly between 0.05 s and 0.4 s, and otherwise updates
the openness without counting; on the Android variant a closed-to-open
transition always increments blinkCount and always emits an event whose
payload carries only timestamp, eye side and tracking id, with no
duration gate at all. -/
theorem C1_blink_window_amended :
    (∀ (bt now : ℚ) (st : EyeState) (side : String) (fw fh : ℚ) (bb : CGRect)
        (tid : Int) (p : CGPoint) (ps : List CGPoint),
      st.isOpen = false →
      updateAvgEAR st.avgEAR (st.sampleCount + 1) (calculateEAR (p :: ps)) * bt
          < calculateEAR (p :: ps) →
      (processEyeLandmarks bt now (some (p :: ps)) st side fw fh bb tid).1.isOpen = true
      ∧ (1/20 < now - st.lastClosedTime → now - st.lastClosedTime < 2/5 →
          (processEyeLandmarks bt now (some (p :: ps)) st side fw fh bb tid).1.blinkCount
            = st.blinkCount + 1
          ∧ (processEyeLandmarks bt now (some (p :: ps)) st side fw fh bb tid).2.2
            = some ⟨now * 1000, side, tid, st.blinkCount + 1⟩)
      ∧ (¬ (1/20 < now - st.lastClosedTime ∧ now - st.lastClosedTime < 2/5) →
          (processEyeLandmarks bt now (some (p :: ps)) st side fw fh bb tid).1.blinkCount
            = st.blinkCount
          ∧ (processEyeLandmarks bt now (some (p :: ps)) st side fw fh bb tid).2.2
            = none))
    ∧ (∀ (bt now prob : ℚ) (tid : Int) (reg : ARegistry) (side : String)
        (pos : Option CGPoint),
      ((reg tid).getD initAEyeState).isOpen = false →
      bt < prob →
      Option.map AEyeState.blinkCount
          ((androidProcessEye bt now pos (some prob) (some tid) reg side).1 tid)
        = some (((reg tid).getD initAEyeState).blinkCount + 1)
      ∧ (androidProcessEye bt now pos (some prob) (some tid) reg side).2.2
        = some ⟨now, side, tid⟩) := by
  constructor
  · intro bt now st side fw fh bb tid p ps hwas hopen
    refine ⟨?_, ?_, ?_⟩
    · simp only [processEyeLandmarks]
      rw [decide_eq_true hopen]
    · intro h1 h2
      constructor <;>
        · simp only [processEyeLandmarks]
          rw [hwas, decide_eq_true hopen, decide_eq_true h1, decide_eq_true h2]
          simp
    · intro h12
      by_cases h1 : 1/20 < now - st.lastClosedTime
      · have h2 : ¬ now - st.lastClosedTime < 2/5 := fun hh => h12 ⟨h1, hh⟩
        constructor <;>
          · simp only [processEyeLandmarks]
            rw [hwas, decide_eq_true hopen, decide_eq_true h1, decide_eq_false h2]
            simp
      · constructor <;>
          · simp only [processEyeLandmarks]
            rw [hwas, decide_eq_true hopen, decide_eq_false h1]
            simp
  · intro bt now prob tid reg side pos hclosed hlt
    constructor <;> simp [androidProcessEye, hclosed, decide_eq_true hlt]

/-- Counterexample for C1 as stated: on Android an eye for tracking id 7
goes closed at time 0 ms, stays closed at 250 ms, and reopens at 500 ms —
a closed duration of 0.5 s, outside the open interval (0.05 s, 0.4 s) —
yet the update increments blinkCount to 1 and emits a blink event (whose
payload, moreover, carries no blink count). -/
theorem C1_android_ungated_counterexample :
    ((c1reg2 7).getD initAEyeState).isOpen = false
    ∧ (androidProcessEye (3/10) 500 none (some (9/10)) (some 7) c1reg2 "left").2.1.blinkCount
        = 1
    ∧ (androidProcessEye (3/10) 500 none (some (9/10)) (some 7) c1reg2 "left").2.2
        = some ⟨500, "left", 7⟩
    ∧ ¬ ((1/20 : ℚ) < (500 - 0) / 1000 ∧ ((500 - 0 : ℚ)) / 1000 < 2/5) := by
  have hreg : (c1reg2 7).getD initAEyeState
      = { isOpen := false, wasOpen := false, blinkCount := 0, currentProbability := 1/10 } := by
    norm_num [c1reg2, c1reg1, androidProcessEye, emptyARegistry, initAEyeState]
  refine ⟨by rw [hreg], ?_, ?_, by norm_num⟩ <;>
    · norm_num [androidProcessEye, hreg]

/-- Witness for the amended C1: on iOS a closed eye reopening after
0.1 s counts one blink and emits the event with the new count; on
Android a closed eye reopening increments unconditionally. -/
theorem C1_blink_window_amended_witness :
    ((processEyeLandmarks (3/5) (1/10) (some (eyePoints (7/40)))
        { initEyeState with isOpen := false } "left" 1 1 bb0 0).1.isOpen = true
    ∧ (processEyeLandmarks (3/5) (1/10) (some (eyePoints (7/40)))
        { initEyeState with isOpen := false } "left" 1 1 bb0 0).1.blinkCount = 1
    ∧ (processEyeLandmarks (3/5) (1/10) (some (eyePoints (7/40)))
        { initEyeState with isOpen := false } "left" 1 1 bb0 0).2.2
        = some ⟨(1/10) * 1000, "left", 0, 1⟩)
    ∧ (androidProcessEye (3/10) 500 none (some (9/10)) (some 7) c1reg2 "left").2.2
        = some ⟨500, "left", 7⟩ := by
  have hear : updateAvgEAR ({ initEyeState with isOpen := false } : EyeState).avgEAR
      (({ initEyeState with isOpen := false } : EyeState).sampleCount + 1)
      (calculateEAR (eyePoints (7/40))) * (3/5) < calculateEAR (eyePoints (7/40)) := by
    norm_num [updateAvgEAR, initEyeState, calculateEAR, eyePoints, minXOf, maxXOf,
      minYOf, maxYOf, bandPoints, sampleOpening, List.filterMap_cons, List.filter_cons,
      List.filter_nil, List.foldl_cons, List.foldl_nil, List.sum_cons,
      decide_eq_true_eq, abs_lt]
  have h := C1_blink_window_amended.1 (3/5) (1/10)
    { initEyeState with isOpen := false } "left" 1 1 bb0 0 ⟨0, 0⟩
    [⟨1, 0⟩, ⟨1/4, 7/40⟩, ⟨1/4, -(7/40)⟩, ⟨3/4, 7/40⟩, ⟨3/4, -(7/40)⟩] rfl hear
  have hwin := h.2.1 (by norm_num [initEyeState]) (by norm_num [initEyeState])
  have hand := C1_blink_window_amended.2 (3/10) 500 (9/10) 7 c1reg2 "left" none
    (by norm_num [c1reg2, c1reg1, androidProcessEye, emptyARegistry, initAEyeState])
    (by norm_num)
  exact ⟨⟨h.1, hwin.1, hwin.2⟩, hand.2⟩

/-- Claim C7 (amended): a missing-landmark update marks the eye closed
(recording lastClosedTime on an open-to-closed transition) when more than
10 samples have accumulated; with at most 10 samples it leaves the
openness state unchanged — so a fresh eye keeps reporting open, but an
eye already marked closed keeps reporting closed. No event is emitted. -/
theorem C7_missing_landmarks_amended :
    (∀ (bt now : ℚ) (r : Option (List CGPoint)) (st : EyeState) (side : String)
        (fw fh : ℚ) (bb : CGRect) (tid : Int),
      r = none ∨ r = some [] →
      (10 < st.sampleCount →
          (processEyeLandmarks bt now r st side fw fh bb tid).1
            = { st with
                  wasOpen := st.isOpen
                  isOpen := false
                  lastClosedTime := if st.isOpen then now else st.lastClosedTime }
          ∧ (processEyeLandmarks bt now r st side fw fh bb tid).2.1.isOpen = false)
      ∧ (st.sampleCount ≤ 10 →
          (processEyeLandmarks bt now r st side fw fh bb tid).1
            = { st with wasOpen := st.isOpen }
          ∧ (processEyeLandmarks bt now r st side fw fh bb tid).2.1.isOpen = st.isOpen)
      ∧ (processEyeLandmarks bt now r st side fw fh bb tid).2.2 = none)
    ∧ initEyeState.isOpen = true := by
  refine ⟨?_, rfl⟩
  intro bt now r st side fw fh bb tid hr
  have hpm : processEyeLandmarks bt now r st side fw fh bb tid
      = processMissingEye now st := by
    rcases hr with h | h <;> subst h <;> rfl
  rw [hpm]
  refine ⟨?_, ?_, rfl⟩
  · intro h
    simp only [processMissingEye, if_pos h]
    constructor <;> first | rfl | trivial
  · intro h
    have h' : ¬ 10 < st.sampleCount := by omega
    simp only [processMissingEye, if_neg h']
    constructor <;> first | rfl | trivial

/-- Counterexample for C7 as stated: after two landmark samples (EAR 0.35
then EAR 0.1) a fresh eye is marked closed with sampleCount = 2; the next
missing-landmark update, although sampleCount is at most 10, reports the
eye closed, not open. -/
theorem C7_missing_landmarks_counterexample :
    c7st2.sampleCount = 2
    ∧ c7st2.isOpen = false
    ∧ (processEyeLandmarks (3/5) 2 none c7st2 "left" 1 1 bb0 0).2.1.isOpen = false := by
  have h1 : c7st1 =
      { isOpen := true
        wasOpen := true
        blinkCount := 0
        currentEAR := 7/20
        avgEAR := 7/20
        sampleCount := 1
        lastOpenTime := 0
        lastClosedTime := 0 } := by
    norm_num [c7st1, processEyeLandmarks, updateAvgEAR, initEyeState, calculateEAR,
      eyePoints, minXOf, maxXOf, minYOf, maxYOf, bandPoints, sampleOpening,
      List.filterMap_cons, List.filter_cons, List.filter_nil, List.foldl_cons,
      List.foldl_nil, List.sum_cons, decide_eq_true_eq, abs_lt]
  have h2 : c7st2 =
      { isOpen := false
        wasOpen := true
        blinkCount := 0
        currentEAR := 1/10
        avgEAR := 9/40
        sampleCount := 2
        lastOpenTime := 0
        lastClosedTime := 1 } := by
    norm_num [c7st2, h1, processEyeLandmarks, updateAvgEAR, calculateEAR,
      eyePoints, minXOf, maxXOf, minYOf, maxYOf, bandPoints, sampleOpening,
      List.filterMap_cons, List.filter_cons, List.filter_nil, List.foldl_cons,
      List.foldl_nil, List.sum_cons, decide_eq_true_eq, abs_lt]
  refine ⟨by rw [h2], by rw [h2], ?_⟩
  rw [h2]
  norm_num [processEyeLandmarks, processMissingEye]

/-- Witness for the amended C7: a missing-landmark update on a fresh eye
(sampleCount 0) leaves the state unchanged except wasOpen and reports the
eye open. -/
theorem C7_missing_landmarks_amended_witness :
    (processEyeLandmarks (3/5) 5 none initEyeState "left" 1 1 bb0 0).1
      = { initEyeState with wasOpen := initEyeState.isOpen }
    ∧ (processEyeLandmarks (3/5) 5 none initEyeState "left" 1 1 bb0 0).2.1.isOpen
      = initEyeState.isOpen :=
  (C7_missing_landmarks_amended.1 (3/5) 5 none initEyeState "left" 1 1 bb0 0
    (Or.inl rfl)).2.1 (by decide)

/-- The two clamp conditionals compose to the Mathlib clamp onto the unit
interval. -/
lemma clampHigh_clampLow_eq (x : ℚ) : clampHigh (clampLow x) = min 1 (max 0 x) := by
  rw [clampLow, clampHigh, max_def, min_def]
  split_ifs <;> first | rfl | linarith

/-- Claim C8 (amended): with landmarks present the reported
openProbability is the clamped linear interpolation of ear between
closedEAR = avgEAR * blinkThreshold and avgEAR * 1.2 only under the
guards of the implementation: the updated average must exceed 0.001 and
the distance from the average to closedEAR must exceed 0.001. When the
distance guard fails the probability degrades to 1 or 0 according to the
openness decision, and when the average guard fails it is 0. -/
theorem C8_openProbability_amended :
    ∀ (bt now : ℚ) (st : EyeState) (side : String) (fw fh : ℚ) (bb : CGRect)
      (tid : Int) (p : CGPoint) (ps : List CGPoint),
      (1/1000 < updateAvgEAR st.avgEAR (st.sampleCount + 1) (calculateEAR (p :: ps)) →
        1/1000 < updateAvgEAR st.avgEAR (st.sampleCount + 1) (calculateEAR (p :: ps))
            - updateAvgEAR st.avgEAR (st.sampleCount + 1) (calculateEAR (p :: ps)) * bt →
        (processEyeLandmarks bt now (some (p :: ps)) st side fw fh bb tid).2.1.openProbability
          = specOpenProbability
              (updateAvgEAR st.avgEAR (st.sampleCount + 1) (calculateEAR (p :: ps)))
              bt (calculateEAR (p :: ps)))
      ∧ (1/1000 < updateAvgEAR st.avgEAR (st.sampleCount + 1) (calculateEAR (p :: ps)) →
        ¬ 1/1000 < updateAvgEAR st.avgEAR (st.sampleCount + 1) (calculateEAR (p :: ps))
            - updateAvgEAR st.avgEAR (st.sampleCount + 1) (calculateEAR (p :: ps)) * bt →
        (processEyeLandmarks bt now (some (p :: ps)) st side fw fh bb tid).2.1.openProbability
          = (if updateAvgEAR st.avgEAR (st.sampleCount + 1) (calculateEAR (p :: ps)) * bt
                < calculateEAR (p :: ps) then (1 : ℚ) else 0))
      ∧ (¬ 1/1000 < updateAvgEAR st.avgEAR (st.sampleCount + 1) (calculateEAR (p :: ps)) →
        (processEyeLandmarks bt now (some (p :: ps)) st side fw fh bb tid).2.1.openProbability
          = 0) := by
  intro bt now st side fw fh bb tid p ps
  have hprob : (processEyeLandmarks bt now (some (p :: ps)) st side fw fh bb tid).2.1.openProbability
      = openProbabilityOf
          (updateAvgEAR st.avgEAR (st.sampleCount + 1) (calculateEAR (p :: ps))) bt
          (calculateEAR (p :: ps))
          (decide (updateAvgEAR st.avgEAR (st.sampleCount + 1) (calculateEAR (p :: ps)) * bt
            < calculateEAR (p :: ps))) := rfl
  refine ⟨?_, ?_, ?_⟩
  · intro h1 h2
    rw [hprob, openProbabilityOf, if_pos h1]
    simp only [if_pos h2]
    rw [specOpenProbability, clampHigh_clampLow_eq]
  · intro h1 h2
    rw [hprob, openProbabilityOf, if_pos h1]
    simp only [if_neg h2]
    by_cases hc : updateAvgEAR st.avgEAR (st.sampleCount + 1) (calculateEAR (p :: ps)) * bt
        < calculateEAR (p :: ps)
    · rw [decide_eq_true hc, if_pos hc]
      simp
    · rw [decide_eq_false hc, if_neg hc]
      simp
  · intro h1
    rw [hprob, openProbabilityOf, if_neg h1]

/-- Counterexample for C8 as stated: a fresh eye fed one tiny EAR sample
(0.0005) has updated average 0.0005, so the average
guard of the implementation fails and it reports probability 0, while the claimed unguarded
interpolation evaluates to 2/3. -/
theorem C8_openProbability_counterexample :
    (processEyeLandmarks (3/5) 0 (some (eyePoints (1/4000))) initEyeState
        "left" 1 1 bb0 0).2.1.openProbability = 0
    ∧ specOpenProbability
        ((processEyeLandmarks (3/5) 0 (some (eyePoints (1/4000))) initEyeState
            "left" 1 1 bb0 0).1.avgEAR)
        (3/5) (calculateEAR (eyePoints (1/4000))) = 2/3
    ∧ (0 : ℚ) ≠ 2/3 := by
  have hear : calculateEAR (eyePoints (1/4000)) = 1/2000 := by
    norm_num [calculateEAR, eyePoints, minXOf, maxXOf, minYOf, maxYOf, bandPoints,
      sampleOpening, List.filterMap_cons, List.filter_cons, List.filter_nil,
      List.foldl_cons, List.foldl_nil, List.sum_cons, decide_eq_true_eq, abs_lt]
  have havg : (processEyeLandmarks (3/5) 0 (some (eyePoints (1/4000))) initEyeState
      "left" 1 1 bb0 0).1.avgEAR = 1/2000 := by
    have : (processEyeLandmarks (3/5) 0 (some (eyePoints (1/4000))) initEyeState
        "left" 1 1 bb0 0).1.avgEAR
        = updateAvgEAR initEyeState.avgEAR (initEyeState.sampleCount + 1)
            (calculateEAR (eyePoints (1/4000))) := rfl
    rw [this, hear]
    norm_num [updateAvgEAR, initEyeState]
  refine ⟨?_, ?_, by norm_num⟩
  · have hprob : (processEyeLandmarks (3/5) 0 (some (eyePoints (1/4000))) initEyeState
        "left" 1 1 bb0 0).2.1.openProbability
        = openProbabilityOf
            (updateAvgEAR initEyeState.avgEAR (initEyeState.sampleCount + 1)
              (calculateEAR (eyePoints (1/4000)))) (3/5)
            (calculateEAR (eyePoints (1/4000)))
            (decide (updateAvgEAR initEyeState.avgEAR (initEyeState.sampleCount + 1)
                (calculateEAR (eyePoints (1/4000))) * (3/5)
              < calculateEAR (eyePoints (1/4000)))) := rfl
    rw [hprob, hear]
    norm_num [updateAvgEAR, initEyeState, openProbabilityOf]
  · rw [havg, hear]
    norm_num [specOpenProbability, min_def, max_def]

/-- Witness for the amended C8: a fresh eye fed one EAR sample of 0.35
satisfies both guards and reports exactly the specified clamped
interpolation. -/
theorem C8_openProbability_amended_witness :
    (processEyeLandmarks (3/5) 0 (some (eyePoints (7/40))) initEyeState
        "left" 1 1 bb0 0).2.1.openProbability
      = specOpenProbability
          (updateAvgEAR initEyeState.avgEAR (initEyeState.sampleCount + 1)
            (calculateEAR (eyePoints (7/40))))
          (3/5) (calculateEAR (eyePoints (7/40))) := by
  have hear : calculateEAR (eyePoints (7/40)) = 7/20 := by
    norm_num [calculateEAR, eyePoints, minXOf, maxXOf, minYOf, maxYOf, bandPoints,
      sampleOpening, List.filterMap_cons, List.filter_cons, List.filter_nil,
      List.foldl_cons, List.foldl_nil, List.sum_cons, decide_eq_true_eq, abs_lt]
  exact (C8_openProbability_amended (3/5) 0 initEyeState "left" 1 1 bb0 0 ⟨0, 0⟩
      [⟨1, 0⟩, ⟨1/4, 7/40⟩, ⟨1/4, -(7/40)⟩, ⟨3/4, 7/40⟩, ⟨3/4, -(7/40)⟩]).1
    (by rw [show calculateEAR (⟨0,0⟩ :: [⟨1,0⟩, ⟨1/4,7/40⟩, ⟨1/4,-(7/40)⟩, ⟨3/4,7/40⟩, ⟨3/4,-(7/40)⟩])
          = 7/20 from hear]
        norm_num [updateAvgEAR, initEyeState])
    (by rw [show calculateEAR (⟨0,0⟩ :: [⟨1,0⟩, ⟨1/4,7/40⟩, ⟨1/4,-(7/40)⟩, ⟨3/4,7/40⟩, ⟨3/4,-(7/40)⟩])
          = 7/20 from hear]
        norm_num [updateAvgEAR, initEyeState])
